import Mathlib

/-!
Verification of the tensor_cache repository (src/tensor_cache/cache.py).

The development embeds the cache shallowly:

* SHA-256 (the call hashlib.sha256 in _get_shard_path) is implemented over
  lists of byte values, FIPS 180-4.
* Python string operations used by the source (rstrip, substring containment,
  startswith, slicing of the hex digest) are modelled over List Char, the
  character-sequence view of Python strings.
* The zarr array store is a third-party library; the persisted array record,
  the codec, and the backend dispatch are modelled from the spec (sections
  4.2 and 6), with each such definition marked in its doc comment.
* The four cache operations set/get/exists/delete are translated line by
  line from cache.py over an explicit backend state.
-/

namespace TensorCacheModel

/-! ## 32-bit words and SHA-256 (hashlib.sha256) -/

/-- Truncation to a 32-bit word. -/
def w32 (x : Nat) : Nat := x % 4294967296

/-- Right rotation of a 32-bit word. -/
def rotr32 (n x : Nat) : Nat := w32 ((x >>> n) ||| (x <<< (32 - n)))

/-- The eight 32-bit working variables / hash state of SHA-256. -/
structure Hash8 where
  h0 : Nat
  h1 : Nat
  h2 : Nat
  h3 : Nat
  h4 : Nat
  h5 : Nat
  h6 : Nat
  h7 : Nat

/-- SHA-256 initial hash value (FIPS 180-4, section 5.3.3), in decimal. -/
def sha256InitHash : Hash8 :=
  ⟨1779033703, 3144134277, 1013904242, 2773480762,
   1359893119, 2600822924, 528734635, 1541459225⟩

/-- SHA-256 round constants (FIPS 180-4, section 4.2.2), in decimal. -/
def sha256K : List Nat :=
  [1116352408, 1899447441, 3049323471, 3921009573,
   961987163, 1508970993, 2453635748, 2870763221,
   3624381080, 310598401, 607225278, 1426881987,
   1925078388, 2162078206, 2614888103, 3248222580,
   3835390401, 4022224774, 264347078, 604807628,
   770255983, 1249150122, 1555081692, 1996064986,
   2554220882, 2821834349, 2952996808, 3210313671,
   3336571891, 3584528711, 113926993, 338241895,
   666307205, 773529912, 1294757372, 1396182291,
   1695183700, 1986661051, 2177026350, 2456956037,
   2730485921, 2820302411, 3259730800, 3345764771,
   3516065817, 3600352804, 4094571909, 275423344,
   430227734, 506948616, 659060556, 883997877,
   958139571, 1322822218, 1537002063, 1747873779,
   1955562222, 2024104815, 2227730452, 2361852424,
   2428436474, 2756734187, 3204031479, 3329325298]

/-- One SHA-256 compression round; the pair carries a schedule word and a
round constant (their order does not matter since only their sum is used). -/
def sha256Round (r : Hash8) (kw : Nat × Nat) : Hash8 :=
  let s1 := rotr32 6 r.h4 ^^^ rotr32 11 r.h4 ^^^ rotr32 25 r.h4
  let ch := (r.h4 &&& r.h5) ^^^ ((r.h4 ^^^ 0xffffffff) &&& r.h6)
  let temp1 := w32 (r.h7 + s1 + ch + kw.1 + kw.2)
  let s0 := rotr32 2 r.h0 ^^^ rotr32 13 r.h0 ^^^ rotr32 22 r.h0
  let maj := (r.h0 &&& r.h1) ^^^ (r.h0 &&& r.h2) ^^^ (r.h1 &&& r.h2)
  let temp2 := w32 (s0 + maj)
  ⟨w32 (temp1 + temp2), r.h0, r.h1, r.h2, w32 (r.h3 + temp1), r.h4, r.h5, r.h6⟩

/-- Next message-schedule word; ws holds the already-computed words newest
first, so the entries at positions 1, 6, 14, 15 are w[i-2], w[i-7], w[i-15]
and w[i-16]. -/
def schedWord (ws : List Nat) : Nat :=
  let a := ws.getD 14 0
  let b := ws.getD 1 0
  let s0 := rotr32 7 a ^^^ rotr32 18 a ^^^ (a >>> 3)
  let s1 := rotr32 17 b ^^^ rotr32 19 b ^^^ (b >>> 10)
  w32 (ws.getD 15 0 + s0 + ws.getD 6 0 + s1)

/-- Extend the message schedule by n further words (newest first). -/
def extendWords : Nat → List Nat → List Nat
  | 0, ws => ws
  | n + 1, ws => extendWords n (schedWord ws :: ws)

/-- The 64-word message schedule from the 16 words of one block. -/
def sha256Schedule (first16 : List Nat) : List Nat :=
  (extendWords 48 first16.reverse).reverse

/-- Big-endian packing of bytes into 32-bit words, four bytes per word. -/
def bytesToWords : List Nat → List Nat
  | b0 :: b1 :: b2 :: b3 :: rest =>
      ((b0 <<< 24) ||| (b1 <<< 16) ||| (b2 <<< 8) ||| b3) :: bytesToWords rest
  | _ => []

/-- Process one 64-byte block. -/
def sha256Compress (h : Hash8) (chunk : List Nat) : Hash8 :=
  let ws := sha256Schedule (bytesToWords chunk)
  let r := (ws.zip sha256K).foldl sha256Round h
  ⟨w32 (h.h0 + r.h0), w32 (h.h1 + r.h1), w32 (h.h2 + r.h2), w32 (h.h3 + r.h3),
   w32 (h.h4 + r.h4), w32 (h.h5 + r.h5), w32 (h.h6 + r.h6), w32 (h.h7 + r.h7)⟩

/-- The message length in bits as eight big-endian bytes. -/
def lenBytes64 (n : Nat) : List Nat :=
  [n / 2 ^ 56 % 256, n / 2 ^ 48 % 256, n / 2 ^ 40 % 256, n / 2 ^ 32 % 256,
   n / 2 ^ 24 % 256, n / 2 ^ 16 % 256, n / 2 ^ 8 % 256, n % 256]

/-- SHA-256 padding: a 0x80 byte, zeros to 56 mod 64, then the bit length. -/
def sha256Pad (msg : List Nat) : List Nat :=
  msg ++ 128 :: (List.replicate ((119 - msg.length % 64) % 64) 0 ++ lenBytes64 (8 * msg.length))

/-- Split a byte list into 64-byte blocks. -/
def chunks64 (l : List Nat) : List (List Nat) :=
  if h : l = [] then [] else l.take 64 :: chunks64 (l.drop 64)
termination_by l.length
decreasing_by
  simp only [List.length_drop]
  have : l.length ≠ 0 := fun hz => h (List.length_eq_zero.mp hz)
  omega

/-- The final hash state of SHA-256 on a byte message. -/
def sha256Hash (msg : List Nat) : Hash8 :=
  (chunks64 (sha256Pad msg)).foldl sha256Compress sha256InitHash

/-- Big-endian serialization of one 32-bit word into four bytes. -/
def wordBytes (w : Nat) : List Nat :=
  [w / 2 ^ 24 % 256, w / 2 ^ 16 % 256, w / 2 ^ 8 % 256, w % 256]

/-- Digest serialization: the eight final words, big endian. -/
def digestBytes (h : Hash8) : List Nat :=
  wordBytes h.h0 ++ wordBytes h.h1 ++ wordBytes h.h2 ++ wordBytes h.h3 ++
  wordBytes h.h4 ++ wordBytes h.h5 ++ wordBytes h.h6 ++ wordBytes h.h7

/-- SHA-256 of a byte message, as the 32 digest bytes
(hashlib.sha256(x).digest()). -/
def sha256 (msg : List Nat) : List Nat := digestBytes (sha256Hash msg)

theorem digestBytes_length (H : Hash8) : (digestBytes H).length = 32 := by
  simp [digestBytes, wordBytes]

theorem wordBytes_lt (w : Nat) : ∀ b ∈ wordBytes w, b < 256 := by
  intro b hb
  simp only [wordBytes, List.mem_cons, List.not_mem_nil, or_false] at hb
  rcases hb with h1 | h1 | h1 | h1 <;> subst h1 <;> exact Nat.mod_lt _ (by decide)

theorem digestBytes_lt (H : Hash8) : ∀ b ∈ digestBytes H, b < 256 := by
  intro b hb
  simp only [digestBytes, List.mem_append] at hb
  rcases hb with ((((((h1 | h1) | h1) | h1) | h1) | h1) | h1) | h1 <;>
    exact wordBytes_lt _ _ h1

theorem sha256_length (msg : List Nat) : (sha256 msg).length = 32 :=
  digestBytes_length _

theorem sha256_mem_lt (msg : List Nat) : ∀ b ∈ sha256 msg, b < 256 :=
  digestBytes_lt _

/-! ## Python string primitives used by cache.py -/

/-- UTF-8 bytes of a string (Python str.encode()). -/
def utf8Bytes (s : String) : List Nat := s.toUTF8.toList.map (fun b => b.toNat)

/-- Whether pat occurs at the head of s. -/
def listLeads : List Char → List Char → Bool
  | [], _ => true
  | _ :: _, [] => false
  | p :: ps, c :: cs => p == c && listLeads ps cs

/-- Whether pat occurs as a contiguous subsequence of s
(the Python operator pat in s). -/
def listHasSub (pat : List Char) : List Char → Bool
  | [] => listLeads pat []
  | c :: cs => listLeads pat (c :: cs) || listHasSub pat cs

/-- Python s.startswith(pat). -/
def pyStartsWith (s pat : String) : Bool := listLeads pat.data s.data

/-- Python pat in s. -/
def pyContains (s pat : String) : Bool := listHasSub pat.data s.data

/-- Python s.rstrip(c) for a single strip character: remove every trailing
occurrence of c. -/
def pyRstrip (s : String) (c : Char) : String :=
  String.mk ((s.data.reverse.dropWhile (fun ch => ch == c)).reverse)

/-- Hex digit character, lowercase as produced by Python bytes.hex(). -/
def hexDigitChar (n : Nat) : Char :=
  if n < 10 then Char.ofNat (48 + n) else Char.ofNat (87 + n)

/-- The two hex characters of one byte value. -/
def hexByteChars (b : Nat) : List Char := [hexDigitChar (b / 16), hexDigitChar (b % 16)]

/-- Hex encoding of a byte list (Python bytes.hex()), as a character list. -/
def hexChars (bs : List Nat) : List Char := (bs.map hexByteChars).flatten

/-! ## Arrays and the array codec

The source keeps numpy arrays in zarr; zarr is a third-party library, so the
persisted array record and its serialization are modelled from the spec
(sections 4.2 and 6). -/

/-- Modelled from the spec: the supported element dtypes (section 6),
signed and unsigned integers of width 8/16/32/64, IEEE float32/float64 and
boolean. -/
inductive Dtype
  | int8
  | int16
  | int32
  | int64
  | uint8
  | uint16
  | uint32
  | uint64
  | float32
  | float64
  | bool
deriving DecidableEq

/-- Element width in bytes of a dtype. -/
def Dtype.itemsize : Dtype → Nat
  | .int8 => 1
  | .int16 => 2
  | .int32 => 4
  | .int64 => 8
  | .uint8 => 1
  | .uint16 => 2
  | .uint32 => 4
  | .uint64 => 8
  | .float32 => 4
  | .float64 => 8
  | .bool => 1

theorem Dtype.itemsize_pos (d : Dtype) : 0 < d.itemsize := by
  cases d <;> decide

/-- An in-memory array: dtype, shape, and the row-major element sequence.
Each element is carried as the natural number whose base-256 little-endian
digits are the element's byte pattern, so every supported dtype (floats
included) is represented by its bit pattern. -/
structure NdArray where
  dtype : Dtype
  shape : List Nat
  data : List Nat
deriving DecidableEq

/-- Well-formedness: the element count matches the shape and every element
fits in the dtype's width. -/
def NdArray.wf (a : NdArray) : Prop :=
  a.data.length = a.shape.prod ∧ ∀ x ∈ a.data, x < 2 ^ (8 * a.dtype.itemsize)

instance (a : NdArray) : Decidable a.wf :=
  inferInstanceAs (Decidable (_ ∧ _))

/-- Modelled from the spec: the record header of section 6, carrying shape,
dtype tag and a format version marker. -/
structure Metadata where
  shape : List Nat
  dtype : Dtype
  format_version : Nat
deriving DecidableEq

/-- Modelled from the spec: decode failure on a malformed record
(section 4.2), raised when the byte length does not match
product(shape) times element_width(dtype). -/
inductive FormatError
  | lengthMismatch
deriving DecidableEq

/-- Little-endian byte serialization of one element into w bytes. -/
def encodeElem : Nat → Nat → List Nat
  | 0, _ => []
  | w + 1, x => x % 256 :: encodeElem w (x / 256)

/-- Little-endian byte deserialization of one element. -/
def decodeElem (bs : List Nat) : Nat := bs.foldr (fun b acc => b + 256 * acc) 0

/-- Split a byte list into pieces of w bytes. -/
def chunksOf (w : Nat) (bs : List Nat) : List (List Nat) :=
  if h : w = 0 ∨ bs = [] then [] else bs.take w :: chunksOf w (bs.drop w)
termination_by bs.length
decreasing_by
  push_neg at h
  simp only [List.length_drop]
  have : bs.length ≠ 0 := fun hz => h.2 (List.length_eq_zero.mp hz)
  have : w ≠ 0 := h.1
  omega

/-- Modelled from the spec: ArrayCodec.encode (section 4.2) — the metadata
header plus the contiguous row-major element buffer. -/
def encode (a : NdArray) : Metadata × List Nat :=
  (⟨a.shape, a.dtype, 1⟩, (a.data.map (encodeElem a.dtype.itemsize)).flatten)

/-- Modelled from the spec: ArrayCodec.decode (section 4.2) — fails with a
FormatError when the byte length does not match product(shape) times
element_width(dtype), and otherwise reconstructs the array with exactly the
recorded shape and dtype. -/
def decode (m : Metadata) (bs : List Nat) : Except FormatError NdArray :=
  if bs.length = m.shape.prod * m.dtype.itemsize then
    .ok ⟨m.dtype, m.shape, (chunksOf m.dtype.itemsize bs).map decodeElem⟩
  else
    .error .lengthMismatch

/-! ## The backend state and zarr records

The zarr store itself is not part of the repository; a stored record is
modelled abstractly by what opening and reading it through zarr does. -/

/-- The Python exception classes relevant to the except clauses of cache.py:
the four classes the source names, and a stand-in for any other class. -/
inductive PyErr
  | fileNotFound
  | valueError
  | keyError
  | arrayNotFound
  | otherError
deriving DecidableEq

/-- Modelled from the spec: a record stored at one path of the backend.
A record is either well formed (zarr.open_array and the full read both
succeed, producing the array), or corrupt. The spec (sections 4.2 and 7)
says corrupt records make decoding fail; which Python exception class a
given corruption raises, and whether it surfaces when the array is opened
or only when its contents are read, depend on the corruption, so a corrupt
record carries the phase and the exception class. A record whose metadata
is malformed JSON, for instance, raises json.JSONDecodeError, a subclass of
ValueError, at open time. -/
inductive ZarrRecord
  | good (a : NdArray)
  | badOpen (e : PyErr)
  | badRead (e : PyErr)
deriving DecidableEq

/-- A backend namespace: a finite map from path strings to stored records. -/
abbrev Store := List (String × ZarrRecord)

/-- Modelled from the spec: the two backend worlds of section 6 — the local
filesystem and the remote object store. zarr addresses one of them per the
cache's remote classification; shutil.rmtree always addresses the local
filesystem. -/
structure CacheState where
  fs : Store
  remote : Store
deriving DecidableEq

/-- Write a record at a path, replacing any record already there
(zarr.create_array with overwrite=True). -/
def storePut (st : Store) (p : String) (r : ZarrRecord) : Store :=
  st.filter (fun e => e.1 != p) ++ [(p, r)]

/-- Recursive removal of everything under a path (shutil.rmtree), a no-op
when nothing is stored there (the FileNotFoundError branch). -/
def storeDel (st : Store) (p : String) : Store :=
  st.filter (fun e => e.1 != p)

/-! ## The TensorCache class -/

/-- The TensorCache instance state: the fields set by the constructor. -/
structure TensorCache where
  base_path : String
  storage_options : Option (List (String × String))
  is_remote : Bool
deriving DecidableEq

/-- TensorCache._check_is_remote: a path is remote when it contains the
scheme separator and is not a file scheme. -/
def check_is_remote (path : String) : Bool :=
  pyContains path "://" && !(pyStartsWith path "file://")

/-- TensorCache.__init__: strip trailing slashes from the base path; the
remote classification is computed from the original, unstripped argument. -/
def TensorCache.init (base_path : String)
    (storage_options : Option (List (String × String))) : TensorCache :=
  { base_path := pyRstrip base_path '/'
    storage_options := storage_options
    is_remote := check_is_remote base_path }

/-- TensorCache._get_shard_path: sha256 of the UTF-8 key, hex encoded;
shard_1 the first two and shard_2 the next two hex characters; the path is
the base path, the two shards and the key with the .zarr suffix, joined by
slashes. -/
def TensorCache._get_shard_path (c : TensorCache) (item_id : String) : String :=
  let hash_bytes := sha256 (utf8Bytes item_id)
  let hex_hash := hexChars hash_bytes
  let shard_1 := String.mk (hex_hash.take 2)
  let shard_2 := String.mk ((hex_hash.drop 2).take 2)
  c.base_path ++ "/" ++ shard_1 ++ "/" ++ shard_2 ++ "/" ++ item_id ++ ".zarr"

/-- Modelled from the spec: backend selection (section 6) — the cache
addresses the remote object store when the base path is a remote-scheme
URI and the local filesystem otherwise. In the source this dispatch is
performed by zarr/fsspec from the path's scheme; the spec fixes it by the
construction-time classification, which the source computes as _is_remote. -/
def TensorCache.backend (c : TensorCache) (s : CacheState) : Store :=
  if c.is_remote then s.remote else s.fs

/-- Replace the backend namespace the cache addresses, leaving the other
namespace unchanged. -/
def TensorCache.setStore (c : TensorCache) (s : CacheState) (st : Store) : CacheState :=
  if c.is_remote then { s with remote := st } else { s with fs := st }

/-- TensorCache.set: compute the shard path and store the array there,
unconditionally overwriting (zarr.create_array overwrite=True followed by
the full-array assignment). -/
def TensorCache.set (c : TensorCache) (s : CacheState) (item_id : String)
    (array : NdArray) : CacheState :=
  let zarr_path := c._get_shard_path item_id
  c.setStore s (storePut (c.backend s) zarr_path (.good array))

/-- The except clause of TensorCache.get: FileNotFoundError, ValueError,
KeyError, zarr.errors.ArrayNotFoundError. -/
def getCatches : PyErr → Bool
  | .fileNotFound => true
  | .valueError => true
  | .keyError => true
  | .arrayNotFound => true
  | .otherError => false

/-- The except clause of TensorCache.exists: FileNotFoundError,
zarr.errors.ArrayNotFoundError. -/
def existsCatches : PyErr → Bool
  | .fileNotFound => true
  | .arrayNotFound => true
  | _ => false

/-- The try block of TensorCache.get applied to what is stored at the
computed path: a missing path makes zarr.open_array raise
FileNotFoundError or ArrayNotFoundError, which the except clause catches,
leaving result None; a good record is opened and read; a corrupt record's
exception is caught (leaving result None) exactly when its class is listed
in the except clause, and propagates otherwise. -/
def getRecord (r : Option ZarrRecord) : Except PyErr (Option NdArray) :=
  match r with
  | none => .ok none
  | some (.good a) => .ok (some a)
  | some (.badOpen e) => if getCatches e then .ok none else .error e
  | some (.badRead e) => if getCatches e then .ok none else .error e

/-- TensorCache.get: compute the shard path and run the guarded open/read
against the record stored there. -/
def TensorCache.get (c : TensorCache) (s : CacheState) (item_id : String) :
    Except PyErr (Option NdArray) :=
  let zarr_path := c._get_shard_path item_id
  getRecord ((c.backend s).lookup zarr_path)

/-- The try block of TensorCache.exists: zarr.open_array only (no read), so
a record corrupt only at read time still counts as present; a missing path
raises a caught class and yields False; a corrupt open raises, caught (as
False) only for FileNotFoundError and ArrayNotFoundError. -/
def existsRecord (r : Option ZarrRecord) : Except PyErr Bool :=
  match r with
  | none => .ok false
  | some (.good _) => .ok true
  | some (.badOpen e) => if existsCatches e then .ok false else .error e
  | some (.badRead _) => .ok true

/-- TensorCache.exists: compute the shard path and open the record there. -/
def TensorCache.exists (c : TensorCache) (s : CacheState) (item_id : String) :
    Except PyErr Bool :=
  let zarr_path := c._get_shard_path item_id
  existsRecord ((c.backend s).lookup zarr_path)

/-- TensorCache.delete: compute the shard path and shutil.rmtree it on the
local filesystem, swallowing FileNotFoundError; the remote namespace is
never touched. -/
def TensorCache.delete (c : TensorCache) (s : CacheState) (item_id : String) :
    CacheState :=
  let zarr_path := c._get_shard_path item_id
  { s with fs := storeDel s.fs zarr_path }

/-! ## Codec lemmas -/

theorem encodeElem_length (w : Nat) : ∀ x, (encodeElem w x).length = w := by
  induction w with
  | zero => intro x; rfl
  | succ w ih => intro x; simp [encodeElem, ih]

theorem decodeElem_encodeElem (w : Nat) :
    ∀ x, x < 2 ^ (8 * w) → decodeElem (encodeElem w x) = x := by
  induction w with
  | zero =>
    intro x hx
    simp only [Nat.mul_zero, pow_zero, Nat.lt_one_iff] at hx
    simp [hx, encodeElem, decodeElem]
  | succ w ih =>
    intro x hx
    have hdiv : x / 256 < 2 ^ (8 * w) := by
      rw [Nat.div_lt_iff_lt_mul (by norm_num : (0:Nat) < 256)]
      calc x < 2 ^ (8 * (w + 1)) := hx
        _ = 2 ^ (8 * w) * 256 := by rw [Nat.mul_succ, pow_add]; norm_num
    simp only [encodeElem, decodeElem, List.foldr_cons]
    have : (encodeElem w (x / 256)).foldr (fun b acc => b + 256 * acc) 0
        = decodeElem (encodeElem w (x / 256)) := rfl
    rw [this, ih _ hdiv, Nat.mod_add_div]

theorem flatten_map_encodeElem_length (w : Nat) (l : List Nat) :
    ((l.map (encodeElem w)).flatten).length = l.length * w := by
  induction l with
  | nil => simp
  | cons x t ih =>
    simp only [List.map_cons, List.flatten_cons, List.length_append,
      encodeElem_length, ih, List.length_cons]
    ring

theorem chunksOf_nil (w : Nat) : chunksOf w [] = [] := by
  rw [chunksOf]
  simp

theorem chunksOf_flatten (w : Nat) (hw : w ≠ 0) :
    ∀ l : List (List Nat), (∀ c ∈ l, c.length = w) → chunksOf w l.flatten = l := by
  intro l
  induction l with
  | nil => intro _; exact chunksOf_nil w
  | cons c t ih =>
    intro hl
    have hc : c.length = w := hl c (List.mem_cons_self c t)
    have hcne : c ≠ [] := by
      intro hnil
      rw [hnil] at hc
      exact hw hc.symm
    rw [List.flatten_cons, chunksOf]
    rw [dif_neg]
    · have htake : (c ++ t.flatten).take w = c := by
        rw [← hc]
        simp
      have hdrop : (c ++ t.flatten).drop w = t.flatten := by
        rw [← hc]
        simp
      rw [htake, hdrop, ih (fun d hd => hl d (List.mem_cons_of_mem c hd))]
    · push_neg
      refine ⟨hw, ?_⟩
      intro hz
      rcases List.append_eq_nil.mp hz with ⟨h1, _⟩
      exact hcne h1

theorem decode_encode (a : NdArray) (h : a.wf) :
    decode (encode a).1 (encode a).2 = .ok a := by
  obtain ⟨hlen, hbound⟩ := h
  have hflat : ((a.data.map (encodeElem a.dtype.itemsize)).flatten).length
      = a.shape.prod * a.dtype.itemsize := by
    rw [flatten_map_encodeElem_length, hlen]
  have hmemlen : ∀ c ∈ a.data.map (encodeElem a.dtype.itemsize),
      c.length = a.dtype.itemsize := by
    intro c hc
    rcases List.mem_map.mp hc with ⟨x, _, hxc⟩
    rw [← hxc]
    exact encodeElem_length _ _
  have hw : a.dtype.itemsize ≠ 0 := Nat.pos_iff_ne_zero.mp a.dtype.itemsize_pos
  unfold decode encode
  simp only
  rw [if_pos hflat, chunksOf_flatten _ hw _ hmemlen, List.map_map]
  have hmap : a.data.map (decodeElem ∘ encodeElem a.dtype.itemsize) = a.data := by
    have h1 : a.data.map (decodeElem ∘ encodeElem a.dtype.itemsize) = a.data.map id :=
      List.map_congr_left (fun x hx => decodeElem_encodeElem _ x (hbound x hx))
    rw [h1, List.map_id]
  rw [hmap]

/-! ## Store and backend lemmas -/

theorem lookup_cons_pair (q k : String) (v : ZarrRecord) (t : Store) :
    List.lookup q ((k, v) :: t) = if q = k then some v else List.lookup q t := by
  rw [List.lookup_cons]
  by_cases h : q = k
  · rw [if_pos h, show (q == k) = true from beq_iff_eq.mpr h]
  · rw [if_neg h, show (q == k) = false from beq_eq_false_iff_ne.mpr h]

theorem lookup_single (p : String) (r : ZarrRecord) :
    List.lookup p [(p, r)] = some r := by
  rw [lookup_cons_pair, if_pos rfl]

theorem lookup_storeDel_self (st : Store) (p : String) :
    (storeDel st p).lookup p = none := by
  induction st with
  | nil => rfl
  | cons e t ih =>
    obtain ⟨k, v⟩ := e
    simp only [storeDel, List.filter_cons] at ih ⊢
    by_cases he : k = p
    · rw [if_neg (by simp [he])]
      exact ih
    · rw [if_pos (by simp [he])]
      rw [lookup_cons_pair, if_neg (Ne.symm he)]
      exact ih

theorem lookup_storeDel_ne (st : Store) (p q : String) (h : q ≠ p) :
    (storeDel st p).lookup q = st.lookup q := by
  induction st with
  | nil => rfl
  | cons e t ih =>
    obtain ⟨k, v⟩ := e
    simp only [storeDel, List.filter_cons] at ih ⊢
    by_cases he : k = p
    · rw [if_neg (by simp [he]), ih, lookup_cons_pair,
        if_neg (fun hq => h (hq.trans he))]
    · rw [if_pos (by simp [he]), lookup_cons_pair, lookup_cons_pair]
      by_cases hq : q = k
      · rw [if_pos hq, if_pos hq]
      · rw [if_neg hq, if_neg hq]
        exact ih

theorem lookup_append_right (l1 l2 : List (String × ZarrRecord)) (q : String)
    (h : l1.lookup q = none) : (l1 ++ l2).lookup q = l2.lookup q := by
  induction l1 with
  | nil => rfl
  | cons e t ih =>
    obtain ⟨k, v⟩ := e
    rw [lookup_cons_pair] at h
    rw [List.cons_append, lookup_cons_pair]
    by_cases hq : q = k
    · rw [if_pos hq] at h
      exact absurd h (by simp)
    · rw [if_neg hq] at h ⊢
      exact ih h

theorem lookup_storePut_self (st : Store) (p : String) (r : ZarrRecord) :
    (storePut st p r).lookup p = some r :=
  (lookup_append_right (storeDel st p) [(p, r)] p
    (lookup_storeDel_self st p)).trans (lookup_single p r)

theorem lookup_storePut_ne (st : Store) (p q : String) (r : ZarrRecord) (h : q ≠ p) :
    (storePut st p r).lookup q = st.lookup q := by
  unfold storePut
  have h1 : List.lookup q ([] ++ [(p, r)]) = none := by
    rw [List.nil_append, lookup_cons_pair, if_neg h]
    rfl
  induction st with
  | nil => exact h1
  | cons e t ih =>
    obtain ⟨k, v⟩ := e
    simp only [List.filter_cons]
    by_cases he : k = p
    · rw [if_neg (by simp [he]), ih, lookup_cons_pair,
        if_neg (fun hq => h (hq.trans he))]
    · rw [if_pos (by simp [he]), List.cons_append, lookup_cons_pair, lookup_cons_pair]
      by_cases hq : q = k
      · rw [if_pos hq, if_pos hq]
      · rw [if_neg hq, if_neg hq]
        exact ih

theorem backend_setStore (c : TensorCache) (s : CacheState) (st : Store) :
    c.backend (c.setStore s st) = st := by
  unfold TensorCache.backend TensorCache.setStore
  by_cases h : c.is_remote <;> simp [h]

theorem setStore_setStore (c : TensorCache) (s : CacheState) (st1 st2 : Store) :
    c.setStore (c.setStore s st1) st2 = c.setStore s st2 := by
  unfold TensorCache.setStore
  by_cases h : c.is_remote <;> simp [h]

theorem storePut_storePut (st : Store) (p : String) (r1 r2 : ZarrRecord) :
    storePut (storePut st p r1) p r2 = storePut st p r2 := by
  unfold storePut
  rw [List.filter_append]
  have h1 : List.filter (fun e => e.1 != p) [(p, r1)] = [] := by
    simp [List.filter]
  have h2 : List.filter (fun e => e.1 != p) (List.filter (fun e => e.1 != p) st)
      = List.filter (fun e => e.1 != p) st := by
    rw [List.filter_filter]
    simp
  rw [h1, h2, List.append_nil]

theorem get_set_self (c : TensorCache) (s : CacheState) (k : String) (a : NdArray) :
    c.get (c.set s k a) k = .ok (some a) := by
  simp only [TensorCache.get, TensorCache.set]
  rw [backend_setStore, lookup_storePut_self]
  rfl

theorem set_set (c : TensorCache) (s : CacheState) (k : String) (a b : NdArray) :
    c.set (c.set s k a) k b = c.set s k b := by
  unfold TensorCache.set
  rw [backend_setStore, setStore_setStore, storePut_storePut]

/-! ## Shard path lemmas -/

theorem hexChars_cons (b : Nat) (rest : List Nat) :
    hexChars (b :: rest) = hexByteChars b ++ hexChars rest := rfl

theorem hexChars_cons_take (b : Nat) (rest : List Nat) :
    (hexChars (b :: rest)).take 2 = hexByteChars b := rfl

theorem hexChars_cons_drop (b : Nat) (rest : List Nat) :
    (hexChars (b :: rest)).drop 2 = hexChars rest := rfl

theorem backend_of_not_remote (c : TensorCache) (s : CacheState)
    (h : c.is_remote = false) : c.backend s = s.fs := by
  unfold TensorCache.backend
  rw [h]
  simp

theorem backend_of_remote (c : TensorCache) (s : CacheState)
    (h : c.is_remote = true) : c.backend s = s.remote := by
  unfold TensorCache.backend
  rw [h]
  simp

/-! ## Claim C6: the shard path -/

/-- Modelled from the spec: the KeyShardingScheme contract of section 4.1,
shard_path(base_path, key), a pure function of the base path and the key
alone. -/
def shard_path (base_path key : String) : String :=
  let hex_hash := hexChars (sha256 (utf8Bytes key))
  base_path ++ "/" ++ String.mk (hex_hash.take 2) ++ "/"
    ++ String.mk ((hex_hash.drop 2).take 2) ++ "/" ++ key ++ ".zarr"

/-- C6: the storage path equals the pure function of (base path, key) given
by base + / + shard1 + / + shard2 + / + key + ".zarr", where shard1 and
shard2 are the first two and next two hex characters of the SHA-256 digest
of the key's bytes; each shard segment is the hex encoding of a single
digest byte, hence ranges over at most 256 values. -/
theorem shard_path_structure : ∀ (c : TensorCache) (key : String),
    c._get_shard_path key = shard_path c.base_path key
    ∧ ∃ n1 n2, n1 < 256 ∧ n2 < 256 ∧
      c._get_shard_path key = c.base_path ++ "/" ++ String.mk (hexByteChars n1)
        ++ "/" ++ String.mk (hexByteChars n2) ++ "/" ++ key ++ ".zarr" := by
  intro c key
  refine ⟨rfl, ?_⟩
  have hlen := sha256_length (utf8Bytes key)
  rcases hd : sha256 (utf8Bytes key) with _ | ⟨b0, _ | ⟨b1, rest⟩⟩
  · rw [hd] at hlen
    simp at hlen
  · rw [hd] at hlen
    simp at hlen
  · refine ⟨b0, b1, ?_, ?_, ?_⟩
    · exact sha256_mem_lt _ b0 (by rw [hd]; exact List.mem_cons_self _ _)
    · exact sha256_mem_lt _ b1
        (by rw [hd]; exact List.mem_cons_of_mem _ (List.mem_cons_self _ _))
    · unfold TensorCache._get_shard_path
      simp only
      rw [hd, hexChars_cons_take, hexChars_cons_drop, hexChars_cons_take]

/-! ## Claim C3: put/get round-trip -/

/-- C3: storing an array and reading it back on the same key returns the
array with the same dtype, shape and contents; and the spec's codec
round-trips every well-formed array, zero-sized shapes included. -/
theorem put_get_roundtrip : ∀ (c : TensorCache) (s : CacheState) (k : String)
    (a : NdArray), a.wf →
    c.get (c.set s k a) k = .ok (some a)
    ∧ decode (encode a).1 (encode a).2 = .ok a := by
  intro c s k a h
  exact ⟨get_set_self c s k a, decode_encode a h⟩

def c3cache : TensorCache := TensorCache.init "/tmp/cache3" none

def c3arr : NdArray := ⟨.int16, [2, 2], [1, 2, 3, 515]⟩

theorem put_get_roundtrip_witness :
    c3arr.wf
    ∧ (c3cache.get (c3cache.set ⟨[], []⟩ "sample_1" c3arr) "sample_1"
        = .ok (some c3arr)
      ∧ decode (encode c3arr).1 (encode c3arr).2 = .ok c3arr) :=
  ⟨by decide, put_get_roundtrip c3cache ⟨[], []⟩ "sample_1" c3arr (by decide)⟩

/-! ## Claim C4: miss semantics -/

/-- C4: when nothing is stored at the key's shard path, get returns the
absent result and exists returns false, with no error. -/
theorem miss_semantics : ∀ (c : TensorCache) (s : CacheState) (k : String),
    (c.backend s).lookup (c._get_shard_path k) = none →
    c.get s k = .ok none ∧ c.exists s k = .ok false := by
  intro c s k h
  constructor
  · simp only [TensorCache.get]
    rw [h]
    rfl
  · simp only [TensorCache.exists]
    rw [h]
    rfl

def c4cache : TensorCache := TensorCache.init "/tmp/cache4" none

theorem miss_semantics_witness :
    (c4cache.backend ⟨[], []⟩).lookup (c4cache._get_shard_path "absent-key") = none
    ∧ (c4cache.get ⟨[], []⟩ "absent-key" = .ok none
      ∧ c4cache.exists ⟨[], []⟩ "absent-key" = .ok false) := by
  have hb : c4cache.backend ⟨[], []⟩ = [] := by
    unfold TensorCache.backend
    by_cases hr : c4cache.is_remote <;> simp [hr]
  have h : (c4cache.backend ⟨[], []⟩).lookup (c4cache._get_shard_path "absent-key")
      = none := by
    rw [hb]
    rfl
  exact ⟨h, miss_semantics c4cache ⟨[], []⟩ "absent-key" h⟩

/-! ## Claim C5: overwrite -/

/-- C5: putting A then B on the same key and reading back yields B; the
second put fully replaces the first, leaving the state exactly as if only B
had been written. -/
theorem overwrite_replaces : ∀ (c : TensorCache) (s : CacheState) (k : String)
    (a b : NdArray),
    c.get (c.set (c.set s k a) k b) k = .ok (some b)
    ∧ c.set (c.set s k a) k b = c.set s k b := by
  intro c s k a b
  refine ⟨?_, set_set c s k a b⟩
  rw [set_set]
  exact get_set_self c s k b

/-! ## Claim C1: corruption surfaced, not masked -/

/-- Whether a stored record is corrupt (opening or reading it raises). -/
def ZarrRecord.isCorrupt : ZarrRecord → Bool
  | .good _ => false
  | .badOpen _ => true
  | .badRead _ => true

/-- Claim C1 as stated, at one cache, state and key: a corrupt record at
the key's shard path makes get surface an error, never the absent result. -/
def corruptionSurfaced (c : TensorCache) (s : CacheState) (k : String) : Prop :=
  ∀ r, (c.backend s).lookup (c._get_shard_path k) = some r → r.isCorrupt = true →
    c.get s k ≠ .ok none ∧ ∃ e, c.get s k = .error e

def c1cache : TensorCache := TensorCache.init "/tmp/cache1" none

def c1state : CacheState :=
  ⟨[(c1cache._get_shard_path "k1", .badOpen .valueError)], []⟩

/-- C1 counterexample: a record whose metadata is corrupt raises ValueError
at open time (for instance json.JSONDecodeError); the except clause of get
catches ValueError, so get returns None — the absent result — for a present
but corrupt record. -/
theorem corruption_masked_as_miss : ¬ corruptionSurfaced c1cache c1state "k1" := by
  intro h
  have hl : (c1cache.backend c1state).lookup (c1cache._get_shard_path "k1")
      = some (.badOpen .valueError) := by
    rw [backend_of_not_remote _ _ (by decide)]
    exact lookup_single _ _
  have hget : c1cache.get c1state "k1" = .ok none := by
    simp only [TensorCache.get]
    rw [hl]
    rfl
  exact (h _ hl rfl).1 hget

/-- C1 amended: get surfaces a corrupt record's exception only when its
class is outside the except clause (FileNotFoundError, ValueError,
KeyError, ArrayNotFoundError); a decode failure raising a caught class is
returned as the absent result, masked as a miss. -/
theorem get_miss_on_caught_decode_errors : ∀ (c : TensorCache) (s : CacheState)
    (k : String) (e : PyErr),
    ((c.backend s).lookup (c._get_shard_path k) = some (.badOpen e)
      ∨ (c.backend s).lookup (c._get_shard_path k) = some (.badRead e)) →
    (getCatches e = true → c.get s k = .ok none)
    ∧ (getCatches e = false → c.get s k = .error e) := by
  intro c s k e h
  constructor <;> intro hc <;> rcases h with h | h <;>
    simp only [TensorCache.get] <;> rw [h] <;> simp [getRecord, hc]

def c1wcache : TensorCache := TensorCache.init "/tmp/cache1w" none

def c1wstate : CacheState :=
  ⟨[(c1wcache._get_shard_path "k1w", .badRead .keyError)], []⟩

theorem get_miss_on_caught_decode_errors_witness :
    ((c1wcache.backend c1wstate).lookup (c1wcache._get_shard_path "k1w")
        = some (.badOpen .keyError)
      ∨ (c1wcache.backend c1wstate).lookup (c1wcache._get_shard_path "k1w")
        = some (.badRead .keyError))
    ∧ ((getCatches .keyError = true → c1wcache.get c1wstate "k1w" = .ok none)
      ∧ (getCatches .keyError = false → c1wcache.get c1wstate "k1w" = .error .keyError)) := by
  have hl : (c1wcache.backend c1wstate).lookup (c1wcache._get_shard_path "k1w")
      = some (.badRead .keyError) := by
    rw [backend_of_not_remote _ _ (by decide)]
    exact lookup_single _ _
  exact ⟨Or.inr hl, get_miss_on_caught_decode_errors c1wcache c1wstate "k1w" .keyError (Or.inr hl)⟩

/-! ## Claim C2: exists agrees with get -/

/-- Whether a get outcome is a hit (an array rather than absent). -/
def isHit (r : Except PyErr (Option NdArray)) : Bool :=
  match r with
  | .ok (some _) => true
  | _ => false

/-- Claim C2 as stated, at one cache, state and key: exists returns true
exactly on get's hits and false exactly on get's misses. -/
def existsAgreesWithGet (c : TensorCache) (s : CacheState) (k : String) : Prop :=
  (c.exists s k = .ok true ↔ isHit (c.get s k) = true)
  ∧ (c.exists s k = .ok false ↔ c.get s k = .ok none)

def c2cache : TensorCache := TensorCache.init "/tmp/cache2" none

def c2state : CacheState :=
  ⟨[(c2cache._get_shard_path "k2", .badOpen .valueError)], []⟩

/-- C2 counterexample: on a record whose open raises ValueError, get
classifies the key as a miss (ValueError is in its except clause) while
exists propagates the ValueError (its except clause lists only
FileNotFoundError and ArrayNotFoundError), so the two do not agree. -/
theorem exists_get_disagree_on_corrupt : ¬ existsAgreesWithGet c2cache c2state "k2" := by
  intro h
  have hl : (c2cache.backend c2state).lookup (c2cache._get_shard_path "k2")
      = some (.badOpen .valueError) := by
    rw [backend_of_not_remote _ _ (by decide)]
    exact lookup_single _ _
  have hget : c2cache.get c2state "k2" = .ok none := by
    simp only [TensorCache.get]
    rw [hl]
    rfl
  have hex : c2cache.exists c2state "k2" = .error .valueError := by
    simp only [TensorCache.exists]
    rw [hl]
    rfl
  have hfalse := h.2.mpr hget
  rw [hex] at hfalse
  exact Except.noConfusion hfalse

/-- C2 amended: exists agrees with get's hit/miss classification on every
state in which the record at the key's shard path is absent or well
formed; on corrupt records the two can disagree. -/
theorem exists_agrees_get_wellformed : ∀ (c : TensorCache) (s : CacheState)
    (k : String),
    ((c.backend s).lookup (c._get_shard_path k) = none
      ∨ ∃ a, (c.backend s).lookup (c._get_shard_path k) = some (.good a)) →
    existsAgreesWithGet c s k := by
  intro c s k h
  unfold existsAgreesWithGet
  rcases h with h | ⟨a, h⟩ <;>
    simp only [TensorCache.get, TensorCache.exists] <;> rw [h] <;>
    simp [getRecord, existsRecord, isHit]

def c2wcache : TensorCache := TensorCache.init "/tmp/cache2w" none

def c2warr : NdArray := ⟨.uint8, [1], [7]⟩

def c2wstate : CacheState :=
  ⟨[(c2wcache._get_shard_path "k2w", .good c2warr)], []⟩

theorem exists_agrees_get_wellformed_witness :
    ((c2wcache.backend c2wstate).lookup (c2wcache._get_shard_path "k2w") = none
      ∨ ∃ a, (c2wcache.backend c2wstate).lookup (c2wcache._get_shard_path "k2w")
        = some (.good a))
    ∧ existsAgreesWithGet c2wcache c2wstate "k2w" := by
  have hl : (c2wcache.backend c2wstate).lookup (c2wcache._get_shard_path "k2w")
      = some (.good c2warr) := by
    rw [backend_of_not_remote _ _ (by decide)]
    exact lookup_single _ _
  exact ⟨Or.inr ⟨c2warr, hl⟩,
    exists_agrees_get_wellformed c2wcache c2wstate "k2w" (Or.inr ⟨c2warr, hl⟩)⟩

/-! ## Claim C7: delete on a remote cache -/

def c7cache : TensorCache := TensorCache.init "s3://bucket/cache" none

def c7arr : NdArray := ⟨.float32, [1], [0]⟩

def c7state : CacheState :=
  ⟨[], [(c7cache._get_shard_path "sample", .good c7arr)]⟩

/-- C7 failing input: a cache on a remote base path with a record stored at
the key's path in the remote backend. delete performs shutil.rmtree on the
raw path against the local filesystem (whose FileNotFoundError it
swallows), leaves the state unchanged, and exists(key) remains true
afterward, contradicting the claim that exists is false after delete. -/
theorem remote_delete_leaves_record :
    c7cache.delete c7state "sample" = c7state
    ∧ c7cache.exists (c7cache.delete c7state "sample") "sample" = .ok true := by
  have hdel : c7cache.delete c7state "sample" = c7state := rfl
  refine ⟨hdel, ?_⟩
  rw [hdel]
  simp only [TensorCache.exists]
  rw [backend_of_remote _ _ (by decide)]
  rw [show c7state.remote = [(c7cache._get_shard_path "sample", .good c7arr)] from rfl,
    lookup_single]
  rfl

/-! ## Claim C8: the four operations address the same location -/

/-- Claim C8's consequence at one cache and key: the four operations all
address the record at the key's shard path in the cache's backend — set
writes it, get and exists read it, and delete removes it. -/
def opsCoherent (c : TensorCache) (k : String) : Prop :=
  (∀ s a, (c.backend (c.set s k a)).lookup (c._get_shard_path k) = some (.good a))
  ∧ (∀ s, c.get s k = getRecord ((c.backend s).lookup (c._get_shard_path k)))
  ∧ (∀ s, c.exists s k = existsRecord ((c.backend s).lookup (c._get_shard_path k)))
  ∧ (∀ s, (c.backend (c.delete s k)).lookup (c._get_shard_path k) = none)

def c8cache : TensorCache := TensorCache.init "s3://bucket/c8" none

def c8arr : NdArray := ⟨.int8, [1], [5]⟩

def c8state : CacheState :=
  ⟨[], [(c8cache._get_shard_path "k8", .good c8arr)]⟩

/-- C8 counterexample: on a remote cache, delete applies the shard path to
the local filesystem while set/get/exists address the remote backend, so
delete does not clear the location the other three operations use. -/
theorem ops_not_coherent_on_remote : ¬ opsCoherent c8cache "k8" := by
  intro h
  have h4 := h.2.2.2 c8state
  have hdel : c8cache.delete c8state "k8" = c8state := rfl
  rw [hdel, backend_of_remote _ _ (by decide)] at h4
  rw [show c8state.remote = [(c8cache._get_shard_path "k8", .good c8arr)] from rfl,
    lookup_single] at h4
  exact Option.noConfusion h4

/-- C8 amended: all four operations derive the storage path with the same
function _get_shard_path; set writes exactly that path of the cache's
backend, get and exists read exactly that path of the cache's backend, and
delete removes exactly that path of the local filesystem — which is the
same location only when the cache is not remote; on a remote cache delete
leaves the backend untouched. -/
theorem ops_address_shard_path : ∀ (c : TensorCache) (s : CacheState) (k : String)
    (a : NdArray),
    c.backend (c.set s k a) = storePut (c.backend s) (c._get_shard_path k) (.good a)
    ∧ c.get s k = getRecord ((c.backend s).lookup (c._get_shard_path k))
    ∧ c.exists s k = existsRecord ((c.backend s).lookup (c._get_shard_path k))
    ∧ c.backend (c.delete s k) =
        (if c.is_remote then c.backend s
         else storeDel (c.backend s) (c._get_shard_path k)) := by
  intro c s k a
  refine ⟨backend_setStore c s _, rfl, rfl, ?_⟩
  cases hr : c.is_remote with
  | true =>
    rw [if_pos rfl, backend_of_remote _ _ hr, backend_of_remote _ _ hr]
    rfl
  | false =>
    rw [if_neg (by simp), backend_of_not_remote _ _ hr,
      backend_of_not_remote _ _ hr]
    rfl

/-! ## Claim C9: delete ignores the remote backend -/

/-- C9: delete always removes the shard path from the local filesystem and
never touches the remote namespace, whatever the cache's classification;
consequently on a remote cache a stored remote record survives delete and
both exists and get still see it. -/
theorem delete_local_fs_only : ∀ (c : TensorCache) (s : CacheState) (k : String),
    (c.delete s k).remote = s.remote
    ∧ (c.delete s k).fs = storeDel s.fs (c._get_shard_path k)
    ∧ (c.is_remote = true → ∀ a,
        s.remote.lookup (c._get_shard_path k) = some (.good a) →
        c.exists (c.delete s k) k = .ok true
        ∧ c.get (c.delete s k) k = .ok (some a)) := by
  intro c s k
  refine ⟨rfl, rfl, ?_⟩
  intro hr a hl
  constructor
  · simp only [TensorCache.exists]
    rw [backend_of_remote _ _ hr]
    rw [show (c.delete s k).remote = s.remote from rfl, hl]
    rfl
  · simp only [TensorCache.get]
    rw [backend_of_remote _ _ hr]
    rw [show (c.delete s k).remote = s.remote from rfl, hl]
    rfl

def c9cache : TensorCache := TensorCache.init "s3://bucket/c9" none

def c9arr : NdArray := ⟨.float64, [2], [0, 1]⟩

def c9state : CacheState :=
  ⟨[], [(c9cache._get_shard_path "k9", .good c9arr)]⟩

theorem delete_local_fs_only_witness :
    c9cache.is_remote = true
    ∧ c9state.remote.lookup (c9cache._get_shard_path "k9") = some (.good c9arr)
    ∧ (c9cache.exists (c9cache.delete c9state "k9") "k9" = .ok true
      ∧ c9cache.get (c9cache.delete c9state "k9") "k9" = .ok (some c9arr)) := by
  have hl : c9state.remote.lookup (c9cache._get_shard_path "k9")
      = some (.good c9arr) := lookup_single _ _
  exact ⟨by decide, hl,
    (delete_local_fs_only c9cache c9state "k9").2.2 (by decide) c9arr hl⟩

/-! ## Claim C10: trailing slashes on the base path -/

/-- Two cache instances behave identically: same shard paths and same
outcome of every operation on every state. -/
def sameBehavior (c1 c2 : TensorCache) : Prop :=
  (∀ k, c1._get_shard_path k = c2._get_shard_path k)
  ∧ (∀ s k, c1.get s k = c2.get s k)
  ∧ (∀ s k, c1.exists s k = c2.exists s k)
  ∧ (∀ s k a, c1.set s k a = c2.set s k a)
  ∧ (∀ s k, c1.delete s k = c2.delete s k)

def c10a : TensorCache := TensorCache.init "foo:" none

def c10b : TensorCache := TensorCache.init "foo://" none

def c10arr : NdArray := ⟨.uint8, [1], [3]⟩

def c10state : CacheState :=
  ⟨[(c10a._get_shard_path "k10", .good c10arr)], []⟩

/-- C10 counterexample: the base paths "foo:" and "foo://" differ only in
trailing slashes (both strip to "foo:"), yet _check_is_remote — computed
from the unstripped argument — classifies the first as local and the second
as remote, so the two instances address different backends and get
disagrees on the same state. -/
theorem trailing_slash_behavior_differs :
    pyRstrip "foo:" '/' = pyRstrip "foo://" '/'
    ∧ ¬ sameBehavior c10a c10b := by
  refine ⟨by decide, ?_⟩
  intro h
  have hga : c10a.get c10state "k10" = .ok (some c10arr) := by
    simp only [TensorCache.get]
    rw [backend_of_not_remote _ _ (by decide)]
    rw [show c10state.fs = [(c10a._get_shard_path "k10", .good c10arr)] from rfl,
      lookup_single]
    rfl
  have hgb : c10b.get c10state "k10" = .ok none := by
    simp only [TensorCache.get]
    rw [backend_of_remote _ _ (by decide)]
    rfl
  have heq := h.2.1 c10state "k10"
  rw [hga, hgb] at heq
  simp at heq

/-- C10 amended: base paths that differ only in trailing slashes yield
identical shard paths and identical behavior provided the two unstripped
paths also agree on the remote classification (which trailing slashes can
change, as when the stripped path ends in a colon); the two constructed
instances are then equal outright. -/
theorem trailing_slash_same_cache : ∀ (p1 p2 : String)
    (opts : Option (List (String × String))),
    pyRstrip p1 '/' = pyRstrip p2 '/' →
    check_is_remote p1 = check_is_remote p2 →
    TensorCache.init p1 opts = TensorCache.init p2 opts
    ∧ sameBehavior (TensorCache.init p1 opts) (TensorCache.init p2 opts) := by
  intro p1 p2 opts h1 h2
  have he : TensorCache.init p1 opts = TensorCache.init p2 opts := by
    unfold TensorCache.init
    rw [h1, h2]
  refine ⟨he, ?_⟩
  rw [he]
  exact ⟨fun k => rfl, fun s k => rfl, fun s k => rfl, fun s k a => rfl, fun s k => rfl⟩

theorem trailing_slash_same_cache_witness :
    pyRstrip "/data/cache" '/' = pyRstrip "/data/cache//" '/'
    ∧ check_is_remote "/data/cache" = check_is_remote "/data/cache//"
    ∧ (TensorCache.init "/data/cache" none = TensorCache.init "/data/cache//" none
      ∧ sameBehavior (TensorCache.init "/data/cache" none)
          (TensorCache.init "/data/cache//" none)) :=
  ⟨by decide, by decide,
    trailing_slash_same_cache "/data/cache" "/data/cache//" none (by decide) (by decide)⟩

end TensorCacheModel
